import Mathlib

/-
Shallow embedding of src/server/src/common.cc and src/server/src/common.h
from the triton developer_tools server wrapper.

C++ enums are embedded as their raw Nat values (a C enum variable can hold
out-of-range values, which the translation functions guard against with
default branches).  Functions with out-parameters are embedded in
state-passing style: the function takes the pre-call value stored at the
out-parameter's target and returns the post-call value together with the
returned Error, so that "the error path does not write the output" is
visible as the output component being returned unchanged.
-/

namespace TritonDevTools

/-- Error status class from common.h: wraps a message string, empty message
means success. -/
structure Error where
  msg_ : String
deriving DecidableEq

/-- Accessor for the message of this error (common.h Error::Message). -/
def Error.Message (e : Error) : String := e.msg_

/-- Success predicate (common.h Error::IsOk): true iff the message is empty. -/
def Error.IsOk (e : Error) : Bool := e.msg_.isEmpty

/-- Convenience success value (common.h Error::Success). -/
def Error.Success : Error := ⟨""⟩

/- Raw values of the native TRITONSERVER enums (triton/core/tritonserver.h). -/
def TRITONSERVER_MEMORY_CPU : Nat := 0
def TRITONSERVER_MEMORY_CPU_PINNED : Nat := 1
def TRITONSERVER_MEMORY_GPU : Nat := 2

def TRITONSERVER_MODEL_CONTROL_NONE : Nat := 0
def TRITONSERVER_MODEL_CONTROL_POLL : Nat := 1
def TRITONSERVER_MODEL_CONTROL_EXPLICIT : Nat := 2

def TRITONSERVER_LOG_DEFAULT : Nat := 0
def TRITONSERVER_LOG_ISO8601 : Nat := 1

def TRITONSERVER_TYPE_INVALID : Nat := 0
def TRITONSERVER_TYPE_BOOL : Nat := 1
def TRITONSERVER_TYPE_UINT8 : Nat := 2
def TRITONSERVER_TYPE_UINT16 : Nat := 3
def TRITONSERVER_TYPE_UINT32 : Nat := 4
def TRITONSERVER_TYPE_UINT64 : Nat := 5
def TRITONSERVER_TYPE_INT8 : Nat := 6
def TRITONSERVER_TYPE_INT16 : Nat := 7
def TRITONSERVER_TYPE_INT32 : Nat := 8
def TRITONSERVER_TYPE_INT64 : Nat := 9
def TRITONSERVER_TYPE_FP16 : Nat := 10
def TRITONSERVER_TYPE_FP32 : Nat := 11
def TRITONSERVER_TYPE_FP64 : Nat := 12
def TRITONSERVER_TYPE_BYTES : Nat := 13
def TRITONSERVER_TYPE_BF16 : Nat := 14

def TRITONSERVER_ERROR_INTERNAL : Nat := 1

/- Raw values of the wrapper enums (common.h). -/
def MODEL_CONTROL_NONE : Nat := 0
def MODEL_CONTROL_POLL : Nat := 1
def MODEL_CONTROL_EXPLICIT : Nat := 2

def CPU : Nat := 0
def CPU_PINNED : Nat := 1
def GPU : Nat := 2

def LOG_DEFAULT : Nat := 0
def LOG_ISO8601 : Nat := 1

/-- common.cc ToTritonModelControlMode: the first argument is the pre-call
value at the out-parameter model_control_mode; the result pairs the returned
Error with the post-call value of that target. -/
def ToTritonModelControlMode (model_control_mode : Nat) (mode : Nat) :
    Error × Nat :=
  if mode = MODEL_CONTROL_NONE then
    (Error.Success, TRITONSERVER_MODEL_CONTROL_NONE)
  else if mode = MODEL_CONTROL_POLL then
    (Error.Success, TRITONSERVER_MODEL_CONTROL_POLL)
  else if mode = MODEL_CONTROL_EXPLICIT then
    (Error.Success, TRITONSERVER_MODEL_CONTROL_EXPLICIT)
  else
    (Error.mk "unsupported model control mode.", model_control_mode)

/-- common.cc ToTritonLogFormat, in the same state-passing style. -/
def ToTritonLogFormat (log_format : Nat) (format : Nat) : Error × Nat :=
  if format = LOG_DEFAULT then
    (Error.Success, TRITONSERVER_LOG_DEFAULT)
  else if format = LOG_ISO8601 then
    (Error.Success, TRITONSERVER_LOG_ISO8601)
  else
    (Error.mk "unsupported log format.", log_format)

/-- common.cc ToTritonDataType: the if-else chain over the string, in
state-passing style (note that every branch, the unrecognized one included,
writes the out-parameter, and every branch returns Error::Success). -/
def ToTritonDataType (dtype : Nat) (data_type : String) : Error × Nat :=
  if data_type = "BOOL" ∨ data_type = "TYPE_BOOL" then
    (Error.Success, TRITONSERVER_TYPE_BOOL)
  else if data_type = "UINT8" ∨ data_type = "TYPE_UINT8" then
    (Error.Success, TRITONSERVER_TYPE_UINT8)
  else if data_type = "UINT16" ∨ data_type = "TYPE_UINT16" then
    (Error.Success, TRITONSERVER_TYPE_UINT16)
  else if data_type = "UINT32" ∨ data_type = "TYPE_UINT32" then
    (Error.Success, TRITONSERVER_TYPE_UINT32)
  else if data_type = "UINT64" ∨ data_type = "TYPE_UINT64" then
    (Error.Success, TRITONSERVER_TYPE_UINT64)
  else if data_type = "INT8" ∨ data_type = "TYPE_INT8" then
    (Error.Success, TRITONSERVER_TYPE_INT8)
  else if data_type = "INT16" ∨ data_type = "TYPE_INT16" then
    (Error.Success, TRITONSERVER_TYPE_INT16)
  else if data_type = "INT32" ∨ data_type = "TYPE_INT32" then
    (Error.Success, TRITONSERVER_TYPE_INT32)
  else if data_type = "INT64" ∨ data_type = "TYPE_INT64" then
    (Error.Success, TRITONSERVER_TYPE_INT64)
  else if data_type = "FP16" ∨ data_type = "TYPE_FP16" then
    (Error.Success, TRITONSERVER_TYPE_FP16)
  else if data_type = "FP32" ∨ data_type = "TYPE_FP32" then
    (Error.Success, TRITONSERVER_TYPE_FP32)
  else if data_type = "FP64" ∨ data_type = "TYPE_FP64" then
    (Error.Success, TRITONSERVER_TYPE_FP64)
  else if data_type = "BYTES" ∨ data_type = "TYPE_STRING" then
    (Error.Success, TRITONSERVER_TYPE_BYTES)
  else if data_type = "BF16" ∨ data_type = "TYPE_BF16" then
    (Error.Success, TRITONSERVER_TYPE_BF16)
  else
    (Error.Success, TRITONSERVER_TYPE_INVALID)

/-- common.cc ToTritonMemoryType, in state-passing style. -/
def ToTritonMemoryType (memory_type : Nat) (mem_type : Nat) : Error × Nat :=
  if mem_type = CPU then
    (Error.Success, TRITONSERVER_MEMORY_CPU)
  else if mem_type = CPU_PINNED then
    (Error.Success, TRITONSERVER_MEMORY_CPU_PINNED)
  else if mem_type = GPU then
    (Error.Success, TRITONSERVER_MEMORY_GPU)
  else
    (Error.mk "unsupported memory type.", memory_type)

/-- common.cc ToMemoryType (the native-to-wrapper direction), in
state-passing style. -/
def ToMemoryType (memory_type : Nat) (mem_type : Nat) : Error × Nat :=
  if mem_type = TRITONSERVER_MEMORY_CPU then
    (Error.Success, CPU)
  else if mem_type = TRITONSERVER_MEMORY_CPU_PINNED then
    (Error.Success, CPU_PINNED)
  else if mem_type = TRITONSERVER_MEMORY_GPU then
    (Error.Success, GPU)
  else
    (Error.mk "unsupported memory type.", memory_type)

/-- common.cc MemoryTypeString. -/
def MemoryTypeString (memory_type : Nat) : String :=
  if memory_type = CPU then "CPU"
  else if memory_type = CPU_PINNED then "CPU_PINNED"
  else if memory_type = GPU then "GPU"
  else "<invalid>"

/-- The 28 strings recognized by ToTritonDataType, in source order. -/
def recognizedDataTypeStrings : List String :=
  ["BOOL", "TYPE_BOOL", "UINT8", "TYPE_UINT8", "UINT16", "TYPE_UINT16",
   "UINT32", "TYPE_UINT32", "UINT64", "TYPE_UINT64", "INT8", "TYPE_INT8",
   "INT16", "TYPE_INT16", "INT32", "TYPE_INT32", "INT64", "TYPE_INT64",
   "FP16", "TYPE_FP16", "FP32", "TYPE_FP32", "FP64", "TYPE_FP64",
   "BYTES", "TYPE_STRING", "BF16", "TYPE_BF16"]

/-- The short and the TYPE_-prefixed spelling of each supported data type,
paired, in source order (BYTES pairs with TYPE_STRING). -/
def dataTypeSpellingPairs : List (String × String) :=
  [("BOOL", "TYPE_BOOL"), ("UINT8", "TYPE_UINT8"), ("UINT16", "TYPE_UINT16"),
   ("UINT32", "TYPE_UINT32"), ("UINT64", "TYPE_UINT64"), ("INT8", "TYPE_INT8"),
   ("INT16", "TYPE_INT16"), ("INT32", "TYPE_INT32"), ("INT64", "TYPE_INT64"),
   ("FP16", "TYPE_FP16"), ("FP32", "TYPE_FP32"), ("FP64", "TYPE_FP64"),
   ("BYTES", "TYPE_STRING"), ("BF16", "TYPE_BF16")]

/-- CUDA runtime error codes as used by common.cc: the three codes the code
tests for by name, and one constructor for every other code. -/
inductive cudaError where
  | cudaSuccess
  | cudaErrorNoDevice
  | cudaErrorInsufficientDriver
  | cudaErrorOther (code : Nat)
deriving DecidableEq

/-- cudaGetErrorString: a nonempty descriptive string for each error code. -/
def cudaGetErrorString : cudaError → String
  | cudaError.cudaSuccess => "no error"
  | cudaError.cudaErrorNoDevice => "no CUDA-capable device is detected"
  | cudaError.cudaErrorInsufficientDriver =>
      "CUDA driver version is insufficient for CUDA runtime version"
  | cudaError.cudaErrorOther _ => "unknown error"

/-- Environment supplying the results of the external allocator and CUDA
runtime calls that ResponseAlloc and ResponseRelease delegate to.  A pointer
is Option Nat with none standing for nullptr.  hostAlloc and gpuAlloc return
the CUDA status or, on cudaSuccess, the pointer the call wrote; hostMalloc
is malloc, which indicates failure by returning none (null). -/
structure CudaEnv where
  setDevice : Int → cudaError
  hostAlloc : Nat → Except cudaError (Option Nat)
  gpuAlloc : Nat → Except cudaError (Option Nat)
  hostMalloc : Nat → Option Nat
  freeHost : Option Nat → cudaError
  gpuFree : Option Nat → cudaError

/-- A returned TRITONSERVER_Error value: code and message. -/
structure TritonErr where
  code : Nat
  msg : String
deriving DecidableEq

/-- The external calls ResponseAlloc can issue, recorded as a trace. -/
inductive AllocCall where
  | setDevice (id : Int)
  | cudaHostAlloc (size : Nat)
  | cudaMalloc (size : Nat)
  | malloc (size : Nat)
deriving DecidableEq

/-- The four out-parameter targets of ResponseAlloc: buffer and buffer_userp
are pointers (none = nullptr); buffer_userp, when non-null, points to the
std string built from the tensor name. -/
structure AllocOuts where
  buffer : Option Nat
  buffer_userp : Option String
  actual_memory_type : Nat
  actual_memory_type_id : Int
deriving DecidableEq

/-- Return value of the embedded ResponseAlloc: the returned error (none =
nullptr = success), the post-call values of the out-parameter targets, and
the trace of external calls issued. -/
structure AllocRet where
  err : Option TritonErr
  outs : AllocOuts
  calls : List AllocCall
deriving DecidableEq

/-- The tail of ResponseAlloc (common.cc lines 115-124): only when
allocated_ptr is non-null are buffer and buffer_userp written; buffer_userp
receives a new std string holding the tensor name. -/
def finishAlloc (tensor_name : String) (o : AllocOuts)
    (allocated_ptr : Option Nat) : AllocOuts :=
  match allocated_ptr with
  | some a => { o with buffer := some a, buffer_userp := some tensor_name }
  | none => o

/-- cudaSetDevice outcomes common.cc treats as fatal in ResponseAlloc: any
code other than cudaSuccess, cudaErrorNoDevice and
cudaErrorInsufficientDriver. -/
def hardDeviceFailure (e : cudaError) : Prop :=
  e ≠ cudaError.cudaSuccess ∧ e ≠ cudaError.cudaErrorNoDevice ∧
    e ≠ cudaError.cudaErrorInsufficientDriver

instance (e : cudaError) : Decidable (hardDeviceFailure e) := by
  unfold hardDeviceFailure
  infer_instance

/-- common.cc ResponseAlloc.  gpuEnabled is the TRITON_ENABLE_GPU build
flag; env supplies the behaviour of the external allocators; outs0 holds
the pre-call values at the out-parameter targets.  The switch over
actual_memory_type becomes the if-chain: the CPU_PINNED and GPU cases exist
only when gpuEnabled, and every other value (TRITONSERVER_MEMORY_CPU
included) falls to the default branch, which coerces to CPU and calls
malloc. -/
def ResponseAlloc (gpuEnabled : Bool) (env : CudaEnv) (tensor_name : String)
    (byte_size : Nat) (preferred_memory_type : Nat)
    (preferred_memory_type_id : Int) (outs0 : AllocOuts) : AllocRet :=
  let o1 : AllocOuts :=
    { outs0 with actual_memory_type := preferred_memory_type,
                 actual_memory_type_id := preferred_memory_type_id }
  if byte_size = 0 then
    { err := none, outs := { o1 with buffer := none, buffer_userp := none },
      calls := [] }
  else if gpuEnabled = true ∧
      preferred_memory_type = TRITONSERVER_MEMORY_CPU_PINNED then
    let sd := env.setDevice preferred_memory_type_id
    if hardDeviceFailure sd then
      { err := some { code := TRITONSERVER_ERROR_INTERNAL,
                      msg := "unable to recover current CUDA device: " ++
                        cudaGetErrorString sd },
        outs := o1, calls := [AllocCall.setDevice preferred_memory_type_id] }
    else
      match env.hostAlloc byte_size with
      | Except.error e =>
          { err := some { code := TRITONSERVER_ERROR_INTERNAL,
                          msg := "cudaHostAlloc failed: " ++
                            cudaGetErrorString e },
            outs := o1,
            calls := [AllocCall.setDevice preferred_memory_type_id,
                      AllocCall.cudaHostAlloc byte_size] }
      | Except.ok p =>
          { err := none, outs := finishAlloc tensor_name o1 p,
            calls := [AllocCall.setDevice preferred_memory_type_id,
                      AllocCall.cudaHostAlloc byte_size] }
  else if gpuEnabled = true ∧
      preferred_memory_type = TRITONSERVER_MEMORY_GPU then
    let sd := env.setDevice preferred_memory_type_id
    if hardDeviceFailure sd then
      { err := some { code := TRITONSERVER_ERROR_INTERNAL,
                      msg := "unable to recover current CUDA device: " ++
                        cudaGetErrorString sd },
        outs := o1, calls := [AllocCall.setDevice preferred_memory_type_id] }
    else
      match env.gpuAlloc byte_size with
      | Except.error e =>
          { err := some { code := TRITONSERVER_ERROR_INTERNAL,
                          msg := "cudaMalloc failed: " ++
                            cudaGetErrorString e },
            outs := o1,
            calls := [AllocCall.setDevice preferred_memory_type_id,
                      AllocCall.cudaMalloc byte_size] }
      | Except.ok p =>
          { err := none, outs := finishAlloc tensor_name o1 p,
            calls := [AllocCall.setDevice preferred_memory_type_id,
                      AllocCall.cudaMalloc byte_size] }
  else
    let o2 : AllocOuts := { o1 with actual_memory_type := TRITONSERVER_MEMORY_CPU }
    { err := none,
      outs := finishAlloc tensor_name o2 (env.hostMalloc byte_size),
      calls := [AllocCall.malloc byte_size] }

/-- Observable actions of ResponseRelease: the deallocator calls, the cerr
diagnostic prints, and the delete of the tag string. -/
inductive ReleaseEvent where
  | freeCall (buffer : Option Nat)
  | setDevice (id : Int)
  | cudaFreeHost (buffer : Option Nat)
  | cudaFree (buffer : Option Nat)
  | diagError (msg : String)
  | deleteTag (tag : String)
deriving DecidableEq

/-- The tag string ResponseRelease works with (common.cc lines 136-141):
the string buffer_userp points to, or a fresh placeholder when buffer_userp
is null. -/
def releaseTagName : Option String → String
  | some s => s
  | none => "<unknown>"

/-- The switch of ResponseRelease (common.cc lines 154-186) as the list of
deallocator calls and cerr diagnostics it performs: the CPU case calls
free; the CUDA cases (present only when gpuEnabled) select the device and
free, printing to cerr on failure; every other value falls to the default
case, which only prints to cerr. -/
def releaseBranchEvents (gpuEnabled : Bool) (env : CudaEnv)
    (buffer : Option Nat) (memory_type : Nat) (memory_type_id : Int) :
    List ReleaseEvent :=
  if memory_type = TRITONSERVER_MEMORY_CPU then
    [ReleaseEvent.freeCall buffer]
  else if gpuEnabled = true ∧
      memory_type = TRITONSERVER_MEMORY_CPU_PINNED then
    let sd := env.setDevice memory_type_id
    if sd = cudaError.cudaSuccess then
      let fe := env.freeHost buffer
      [ReleaseEvent.setDevice memory_type_id,
       ReleaseEvent.cudaFreeHost buffer] ++
        (if fe ≠ cudaError.cudaSuccess then
          [ReleaseEvent.diagError ("error: failed to cudaFree: " ++
            cudaGetErrorString fe)]
        else [])
    else
      [ReleaseEvent.setDevice memory_type_id,
       ReleaseEvent.diagError ("error: failed to cudaFree: " ++
         cudaGetErrorString sd)]
  else if gpuEnabled = true ∧ memory_type = TRITONSERVER_MEMORY_GPU then
    let sd := env.setDevice memory_type_id
    if sd = cudaError.cudaSuccess then
      let fe := env.gpuFree buffer
      [ReleaseEvent.setDevice memory_type_id,
       ReleaseEvent.cudaFree buffer] ++
        (if fe ≠ cudaError.cudaSuccess then
          [ReleaseEvent.diagError ("error: failed to cudaFree: " ++
            cudaGetErrorString fe)]
        else [])
    else
      [ReleaseEvent.setDevice memory_type_id,
       ReleaseEvent.diagError ("error: failed to cudaFree: " ++
         cudaGetErrorString sd)]
  else
    [ReleaseEvent.diagError
      "error: unexpected buffer allocated in CUDA managed memory"]

/-- common.cc ResponseRelease: picks the tag string (substituting the
placeholder when buffer_userp is null), dispatches on memory_type to the
matching deallocator, deletes the tag, and returns nullptr (success). -/
def ResponseRelease (gpuEnabled : Bool) (env : CudaEnv) (buffer : Option Nat)
    (buffer_userp : Option String) (byte_size : Nat) (memory_type : Nat)
    (memory_type_id : Int) : Option TritonErr × List ReleaseEvent :=
  (none,
   releaseBranchEvents gpuEnabled env buffer memory_type memory_type_id ++
     [ReleaseEvent.deleteTag (releaseTagName buffer_userp)])

/-- The promise rendezvous cell of InferResponseComplete: value is the
fulfilled response pointer (none = still pending) and setCount counts the
set_value calls made on it. -/
structure Promise where
  value : Option Nat
  setCount : Nat
deriving DecidableEq

/-- common.cc InferResponseComplete: on a non-null response, the promise is
fulfilled with that response (set_value, then the promise object is
deleted); on a null response nothing happens. -/
def InferResponseComplete (response : Option Nat) (flags : Nat)
    (p : Promise) : Promise :=
  match response with
  | none => p
  | some r => { value := some r, setCount := p.setCount + 1 }

/-- A sequence of completion-callback firings applied to the rendezvous
cell of one request. -/
def runCompletions (events : List (Option Nat)) (p : Promise) : Promise :=
  events.foldl (fun s e => InferResponseComplete e 0 s) p

/-- An environment in which every external call succeeds and both
allocators return the non-null pointer 1. -/
def okEnv : CudaEnv :=
  { setDevice := fun _ => cudaError.cudaSuccess,
    hostAlloc := fun _ => Except.ok (some 1),
    gpuAlloc := fun _ => Except.ok (some 1),
    hostMalloc := fun _ => some 1,
    freeHost := fun _ => cudaError.cudaSuccess,
    gpuFree := fun _ => cudaError.cudaSuccess }

/-- An environment identical to okEnv except that malloc fails, returning
null. -/
def mallocNullEnv : CudaEnv := { okEnv with hostMalloc := fun _ => none }

/-- An environment identical to okEnv except that cudaSetDevice fails with
a code the ResponseAlloc guard treats as fatal. -/
def hardFailEnv : CudaEnv :=
  { okEnv with setDevice := fun _ => cudaError.cudaErrorOther 2 }

/-- Out-parameter targets all holding null / zero before the call. -/
def emptyOuts : AllocOuts :=
  { buffer := none, buffer_userp := none,
    actual_memory_type := 0, actual_memory_type_id := 0 }

/-- Recognizer for the tag-delete event of ResponseRelease. -/
def isDeleteTag : ReleaseEvent → Bool
  | ReleaseEvent.deleteTag _ => true
  | _ => false

theorem finishAlloc_actual_memory_type_id (n : String) (o : AllocOuts)
    (p : Option Nat) :
    (finishAlloc n o p).actual_memory_type_id = o.actual_memory_type_id := by
  cases p <;> rfl

theorem finishAlloc_actual_memory_type (n : String) (o : AllocOuts)
    (p : Option Nat) :
    (finishAlloc n o p).actual_memory_type = o.actual_memory_type := by
  cases p <;> rfl

theorem releaseBranchEvents_no_deleteTag (g : Bool) (env : CudaEnv)
    (buffer : Option Nat) (mt : Nat) (mtid : Int) :
    (releaseBranchEvents g env buffer mt mtid).countP isDeleteTag = 0 := by
  simp only [releaseBranchEvents]
  split_ifs <;>
    simp [isDeleteTag, List.countP_cons, List.countP_append]

theorem runCompletions_setCount (events : List (Option Nat)) (p : Promise) :
    (runCompletions events p).setCount =
      p.setCount + events.countP (fun e => e.isSome) := by
  induction events generalizing p with
  | nil => simp [runCompletions, List.countP_nil]
  | cons e es ih =>
      have hstep : runCompletions (e :: es) p =
          runCompletions es (InferResponseComplete e 0 p) := rfl
      cases e with
      | none =>
          rw [hstep]
          simp [InferResponseComplete, ih, List.countP_cons]
      | some r =>
          rw [hstep]
          simp [InferResponseComplete, ih, List.countP_cons]
          omega

/-- Claim C3: a zero-byte allocation request sets the buffer out-parameter
and the tag (buffer_userp) out-parameter to null, issues no call to any
underlying allocator, and returns success. -/
theorem responseAlloc_zero_byte (gpuEnabled : Bool) (env : CudaEnv)
    (tensor_name : String) (mt : Nat) (mtid : Int) (outs0 : AllocOuts) :
    ResponseAlloc gpuEnabled env tensor_name 0 mt mtid outs0 =
      { err := none,
        outs := { buffer := none, buffer_userp := none,
                  actual_memory_type := mt, actual_memory_type_id := mtid },
        calls := [] } := by
  rfl

/-- Claim C10: ResponseAlloc reports the actual memory-type-id equal to the
preferred memory-type-id on every path, the zero-byte path and the
coerced-to-CPU default path included. -/
theorem responseAlloc_reports_preferred_id (gpuEnabled : Bool)
    (env : CudaEnv) (tensor_name : String) (byte_size : Nat) (mt : Nat)
    (mtid : Int) (outs0 : AllocOuts) :
    (ResponseAlloc gpuEnabled env tensor_name byte_size mt mtid
        outs0).outs.actual_memory_type_id = mtid := by
  simp only [ResponseAlloc]
  split_ifs <;> (try rfl) <;> (try split) <;>
    simp [finishAlloc_actual_memory_type_id]

/-- Claim C4: a non-zero request whose preferred memory type is not a
recognized supported location class (or is a device class unavailable in
the build configuration) does not fail on that account: ResponseAlloc
silently coerces it to the default host allocator (malloc) and reports the
actual memory type as CPU. -/
theorem responseAlloc_unrecognized_coerces (gpuEnabled : Bool)
    (env : CudaEnv) (tensor_name : String) (byte_size : Nat) (mt : Nat)
    (mtid : Int) (outs0 : AllocOuts) (hbs : byte_size ≠ 0)
    (hngpu : ¬(gpuEnabled = true ∧ (mt = TRITONSERVER_MEMORY_CPU_PINNED ∨
        mt = TRITONSERVER_MEMORY_GPU)))
    (hcpu : mt ≠ TRITONSERVER_MEMORY_CPU) :
    (ResponseAlloc gpuEnabled env tensor_name byte_size mt mtid outs0).err =
      none ∧
    (ResponseAlloc gpuEnabled env tensor_name byte_size mt mtid
        outs0).outs.actual_memory_type = TRITONSERVER_MEMORY_CPU ∧
    (ResponseAlloc gpuEnabled env tensor_name byte_size mt mtid
        outs0).calls = [AllocCall.malloc byte_size] := by
  have h1 : ¬(gpuEnabled = true ∧ mt = TRITONSERVER_MEMORY_CPU_PINNED) :=
    fun h => hngpu ⟨h.1, Or.inl h.2⟩
  have h2 : ¬(gpuEnabled = true ∧ mt = TRITONSERVER_MEMORY_GPU) :=
    fun h => hngpu ⟨h.1, Or.inr h.2⟩
  simp only [ResponseAlloc]
  rw [if_neg hbs, if_neg h1, if_neg h2]
  exact ⟨rfl, by rw [finishAlloc_actual_memory_type], rfl⟩

/-- Witness for responseAlloc_unrecognized_coerces at the unrecognized
memory-type value 7 with GPU support disabled. -/
theorem responseAlloc_unrecognized_coerces_witness :
    (ResponseAlloc false okEnv "t0" 8 7 3 emptyOuts).err = none ∧
    (ResponseAlloc false okEnv "t0" 8 7 3
        emptyOuts).outs.actual_memory_type = TRITONSERVER_MEMORY_CPU ∧
    (ResponseAlloc false okEnv "t0" 8 7 3 emptyOuts).calls =
      [AllocCall.malloc 8] :=
  responseAlloc_unrecognized_coerces false okEnv "t0" 8 7 3 emptyOuts
    (by decide) (by decide) (by decide)

/-- Claim C6: each supported wrapper memory-type value (CPU, CPU_PINNED,
GPU) maps to the native memory type and back, both directions succeeding,
yielding the original wrapper value. -/
theorem memoryType_roundtrip (t0 w0 m : Nat)
    (hm : m = CPU ∨ m = CPU_PINNED ∨ m = GPU) :
    (ToTritonMemoryType t0 m).1 = Error.Success ∧
    (ToMemoryType w0 (ToTritonMemoryType t0 m).2).1 = Error.Success ∧
    (ToMemoryType w0 (ToTritonMemoryType t0 m).2).2 = m := by
  rcases hm with h | h | h <;> subst h <;> exact ⟨rfl, rfl, rfl⟩

/-- Witness for memoryType_roundtrip at the wrapper value GPU. -/
theorem memoryType_roundtrip_witness :
    (ToTritonMemoryType 9 GPU).1 = Error.Success ∧
    (ToMemoryType 9 (ToTritonMemoryType 9 GPU).2).1 = Error.Success ∧
    (ToMemoryType 9 (ToTritonMemoryType 9 GPU).2).2 = GPU :=
  memoryType_roundtrip 9 9 GPU (Or.inr (Or.inr rfl))

/-- Claim C7: each of the four enum translators, given an unrecognized
input value, returns an Error whose success predicate IsOk is false and
whose message is non-empty, and writes no sentinel to the output target
(the target keeps its prior value). -/
theorem translators_unrecognized_error :
    (∀ prior mode, mode ≠ MODEL_CONTROL_NONE → mode ≠ MODEL_CONTROL_POLL →
      mode ≠ MODEL_CONTROL_EXPLICIT →
      (ToTritonModelControlMode prior mode).1.IsOk = false ∧
      (ToTritonModelControlMode prior mode).1.Message ≠ "" ∧
      (ToTritonModelControlMode prior mode).2 = prior) ∧
    (∀ prior format, format ≠ LOG_DEFAULT → format ≠ LOG_ISO8601 →
      (ToTritonLogFormat prior format).1.IsOk = false ∧
      (ToTritonLogFormat prior format).1.Message ≠ "" ∧
      (ToTritonLogFormat prior format).2 = prior) ∧
    (∀ prior mem, mem ≠ CPU → mem ≠ CPU_PINNED → mem ≠ GPU →
      (ToTritonMemoryType prior mem).1.IsOk = false ∧
      (ToTritonMemoryType prior mem).1.Message ≠ "" ∧
      (ToTritonMemoryType prior mem).2 = prior) ∧
    (∀ prior mem, mem ≠ TRITONSERVER_MEMORY_CPU →
      mem ≠ TRITONSERVER_MEMORY_CPU_PINNED → mem ≠ TRITONSERVER_MEMORY_GPU →
      (ToMemoryType prior mem).1.IsOk = false ∧
      (ToMemoryType prior mem).1.Message ≠ "" ∧
      (ToMemoryType prior mem).2 = prior) := by
  refine ⟨?_, ?_, ?_, ?_⟩
  · intro prior mode h0 h1 h2
    simp only [ToTritonModelControlMode]
    rw [if_neg h0, if_neg h1, if_neg h2]
    exact ⟨rfl, show ("unsupported model control mode." : String) ≠ "" by decide, rfl⟩
  · intro prior format h0 h1
    simp only [ToTritonLogFormat]
    rw [if_neg h0, if_neg h1]
    exact ⟨rfl, show ("unsupported log format." : String) ≠ "" by decide, rfl⟩
  · intro prior mem h0 h1 h2
    simp only [ToTritonMemoryType]
    rw [if_neg h0, if_neg h1, if_neg h2]
    exact ⟨rfl, show ("unsupported memory type." : String) ≠ "" by decide, rfl⟩
  · intro prior mem h0 h1 h2
    simp only [ToMemoryType]
    rw [if_neg h0, if_neg h1, if_neg h2]
    exact ⟨rfl, show ("unsupported memory type." : String) ≠ "" by decide, rfl⟩

/-- Witness for translators_unrecognized_error: each translator applied to
an out-of-range value. -/
theorem translators_unrecognized_error_witness :
    ((ToTritonModelControlMode 5 9).1.IsOk = false ∧
      (ToTritonModelControlMode 5 9).1.Message ≠ "" ∧
      (ToTritonModelControlMode 5 9).2 = 5) ∧
    ((ToTritonLogFormat 4 7).1.IsOk = false ∧
      (ToTritonLogFormat 4 7).1.Message ≠ "" ∧
      (ToTritonLogFormat 4 7).2 = 4) ∧
    ((ToTritonMemoryType 6 3).1.IsOk = false ∧
      (ToTritonMemoryType 6 3).1.Message ≠ "" ∧
      (ToTritonMemoryType 6 3).2 = 6) ∧
    ((ToMemoryType 8 11).1.IsOk = false ∧
      (ToMemoryType 8 11).1.Message ≠ "" ∧
      (ToMemoryType 8 11).2 = 8) :=
  ⟨translators_unrecognized_error.1 5 9 (by decide) (by decide) (by decide),
   translators_unrecognized_error.2.1 4 7 (by decide) (by decide),
   translators_unrecognized_error.2.2.1 6 3 (by decide) (by decide)
     (by decide),
   translators_unrecognized_error.2.2.2 8 11 (by decide) (by decide)
     (by decide)⟩

/-- Claim C9: on an unrecognized input each of the four enum translators
returns its error with the output target completely unwritten: the
post-call value of the target equals its pre-call value. -/
theorem translators_error_leaves_output_unwritten :
    (∀ prior mode, mode ≠ MODEL_CONTROL_NONE → mode ≠ MODEL_CONTROL_POLL →
      mode ≠ MODEL_CONTROL_EXPLICIT →
      ToTritonModelControlMode prior mode =
        (Error.mk "unsupported model control mode.", prior)) ∧
    (∀ prior format, format ≠ LOG_DEFAULT → format ≠ LOG_ISO8601 →
      ToTritonLogFormat prior format =
        (Error.mk "unsupported log format.", prior)) ∧
    (∀ prior mem, mem ≠ CPU → mem ≠ CPU_PINNED → mem ≠ GPU →
      ToTritonMemoryType prior mem =
        (Error.mk "unsupported memory type.", prior)) ∧
    (∀ prior mem, mem ≠ TRITONSERVER_MEMORY_CPU →
      mem ≠ TRITONSERVER_MEMORY_CPU_PINNED → mem ≠ TRITONSERVER_MEMORY_GPU →
      ToMemoryType prior mem =
        (Error.mk "unsupported memory type.", prior)) := by
  refine ⟨?_, ?_, ?_, ?_⟩
  · intro prior mode h0 h1 h2
    simp only [ToTritonModelControlMode]
    rw [if_neg h0, if_neg h1, if_neg h2]
  · intro prior format h0 h1
    simp only [ToTritonLogFormat]
    rw [if_neg h0, if_neg h1]
  · intro prior mem h0 h1 h2
    simp only [ToTritonMemoryType]
    rw [if_neg h0, if_neg h1, if_neg h2]
  · intro prior mem h0 h1 h2
    simp only [ToMemoryType]
    rw [if_neg h0, if_neg h1, if_neg h2]

/-- Witness for translators_error_leaves_output_unwritten: each translator
applied to an out-of-range value with a distinct prior output value. -/
theorem translators_error_leaves_output_unwritten_witness :
    ToTritonModelControlMode 17 12 =
      (Error.mk "unsupported model control mode.", 17) ∧
    ToTritonLogFormat 13 6 = (Error.mk "unsupported log format.", 13) ∧
    ToTritonMemoryType 19 5 = (Error.mk "unsupported memory type.", 19) ∧
    ToMemoryType 21 4 = (Error.mk "unsupported memory type.", 21) :=
  ⟨translators_error_leaves_output_unwritten.1 17 12 (by decide) (by decide)
     (by decide),
   translators_error_leaves_output_unwritten.2.1 13 6 (by decide)
     (by decide),
   translators_error_leaves_output_unwritten.2.2.1 19 5 (by decide)
     (by decide) (by decide),
   translators_error_leaves_output_unwritten.2.2.2 21 4 (by decide)
     (by decide) (by decide)⟩

set_option maxHeartbeats 1000000 in
/-- Claim C5: ToTritonDataType never returns an error; the short spelling
and the prefixed spelling of each supported data type parse to the same
non-invalid native type; every string outside the recognized (and
case-sensitive) spellings parses to the TRITONSERVER_TYPE_INVALID sentinel,
still with success. -/
theorem toTritonDataType_spellings :
    (∀ d s, (ToTritonDataType d s).1 = Error.Success) ∧
    (∀ d1 d2 p, p ∈ dataTypeSpellingPairs →
      (ToTritonDataType d1 p.1).2 = (ToTritonDataType d2 p.2).2 ∧
      (ToTritonDataType d1 p.1).2 ≠ TRITONSERVER_TYPE_INVALID) ∧
    (∀ d s, s ∉ recognizedDataTypeStrings →
      (ToTritonDataType d s).2 = TRITONSERVER_TYPE_INVALID) := by
  refine ⟨?_, ?_, ?_⟩
  · intro d s
    simp only [ToTritonDataType, apply_ite Prod.fst, ite_self]
  · intro d1 d2 p hp
    simp only [dataTypeSpellingPairs, List.mem_cons,
      List.not_mem_nil, or_false] at hp
    rcases hp with h | h | h | h | h | h | h | h | h | h | h | h | h | h <;>
      subst h <;> unfold ToTritonDataType <;> exact ⟨by decide, by decide⟩
  · intro d s h
    simp only [recognizedDataTypeStrings, List.mem_cons,
      List.not_mem_nil, or_false, not_or] at h
    obtain ⟨h1, h2, h3, h4, h5, h6, h7, h8, h9, h10, h11, h12, h13, h14,
      h15, h16, h17, h18, h19, h20, h21, h22, h23, h24, h25, h26, h27,
      h28⟩ := h
    unfold ToTritonDataType
    rw [if_neg (not_or_intro h1 h2), if_neg (not_or_intro h3 h4),
      if_neg (not_or_intro h5 h6), if_neg (not_or_intro h7 h8),
      if_neg (not_or_intro h9 h10), if_neg (not_or_intro h11 h12),
      if_neg (not_or_intro h13 h14), if_neg (not_or_intro h15 h16),
      if_neg (not_or_intro h17 h18), if_neg (not_or_intro h19 h20),
      if_neg (not_or_intro h21 h22), if_neg (not_or_intro h23 h24),
      if_neg (not_or_intro h25 h26), if_neg (not_or_intro h27 h28)]

/-- Witness for toTritonDataType_spellings: the FP32 spelling pair agrees,
and a lowercase variant is unrecognized and maps to the invalid sentinel
with a success status. -/
theorem toTritonDataType_spellings_witness :
    (ToTritonDataType 0 "bool").1 = Error.Success ∧
    (ToTritonDataType 0 "FP32").2 = (ToTritonDataType 3 "TYPE_FP32").2 ∧
    (ToTritonDataType 0 "bool").2 = TRITONSERVER_TYPE_INVALID :=
  ⟨toTritonDataType_spellings.1 0 "bool",
   (toTritonDataType_spellings.2.1 0 3 ("FP32", "TYPE_FP32")
     (by decide)).1,
   toTritonDataType_spellings.2.2 0 "bool" (by decide)⟩

/-- Claim C8: ResponseRelease always returns success; release-path
anomalies appear only as diagnostic events, never as a returned error; the
tag object is freed exactly once on every invocation, and when the engine
passes a null tag the placeholder string is substituted and freed
instead. -/
theorem responseRelease_contract (gpuEnabled : Bool) (env : CudaEnv)
    (buffer : Option Nat) (buffer_userp : Option String) (byte_size : Nat)
    (mt : Nat) (mtid : Int) :
    (ResponseRelease gpuEnabled env buffer buffer_userp byte_size mt
        mtid).1 = none ∧
    ((ResponseRelease gpuEnabled env buffer buffer_userp byte_size mt
        mtid).2.countP isDeleteTag) = 1 ∧
    (buffer_userp = none →
      ReleaseEvent.deleteTag "<unknown>" ∈
        (ResponseRelease gpuEnabled env buffer buffer_userp byte_size mt
          mtid).2) ∧
    (∀ s, buffer_userp = some s →
      ReleaseEvent.deleteTag s ∈
        (ResponseRelease gpuEnabled env buffer buffer_userp byte_size mt
          mtid).2) := by
  refine ⟨rfl, ?_, ?_, ?_⟩
  · show ((releaseBranchEvents gpuEnabled env buffer mt mtid) ++
      [ReleaseEvent.deleteTag (releaseTagName buffer_userp)]).countP
        isDeleteTag = 1
    rw [List.countP_append, releaseBranchEvents_no_deleteTag]
    rfl
  · intro h
    subst h
    exact List.mem_append_right _ (List.mem_singleton.mpr rfl)
  · intro s h
    subst h
    exact List.mem_append_right _ (List.mem_singleton.mpr rfl)

/-- Witness for responseRelease_contract with a null tag on the CPU path:
success is returned and the placeholder tag is the one freed. -/
theorem responseRelease_contract_witness :
    (ResponseRelease false okEnv (some 5) none 4 TRITONSERVER_MEMORY_CPU
        0).1 = none ∧
    ((ResponseRelease false okEnv (some 5) none 4 TRITONSERVER_MEMORY_CPU
        0).2.countP isDeleteTag) = 1 ∧
    ReleaseEvent.deleteTag "<unknown>" ∈
      (ResponseRelease false okEnv (some 5) none 4 TRITONSERVER_MEMORY_CPU
        0).2 :=
  ⟨(responseRelease_contract false okEnv (some 5) none 4
      TRITONSERVER_MEMORY_CPU 0).1,
   (responseRelease_contract false okEnv (some 5) none 4
      TRITONSERVER_MEMORY_CPU 0).2.1,
   (responseRelease_contract false okEnv (some 5) none 4
      TRITONSERVER_MEMORY_CPU 0).2.2.1 rfl⟩

/-- Claim C2: InferResponseComplete fulfills the pending rendezvous promise
exactly once with the non-null response it is fired with; a null firing is a
no-op; and under the non-decoupled engine contract (at most one non-null
firing per request) the promise is never fulfilled more than once over the
request's lifetime. -/
theorem inferResponseComplete_rendezvous :
    (∀ r flags p, p.value = none →
      InferResponseComplete (some r) flags p =
        { value := some r, setCount := p.setCount + 1 }) ∧
    (∀ flags p, InferResponseComplete none flags p = p) ∧
    (∀ events p, p.setCount = 0 →
      events.countP (fun e => e.isSome) ≤ 1 →
      (runCompletions events p).setCount ≤ 1) := by
  refine ⟨?_, ?_, ?_⟩
  · intro r flags p _
    rfl
  · intro flags p
    rfl
  · intro events p h0 h1
    rw [runCompletions_setCount, h0]
    omega

/-- Witness for inferResponseComplete_rendezvous: one null firing followed
by one non-null firing fulfills the cell exactly once. -/
theorem inferResponseComplete_rendezvous_witness :
    InferResponseComplete (some 7) 0 { value := none, setCount := 0 } =
      { value := some 7, setCount := 1 } ∧
    InferResponseComplete none 0 { value := none, setCount := 0 } =
      { value := none, setCount := 0 } ∧
    (runCompletions [none, some 7]
      { value := none, setCount := 0 }).setCount ≤ 1 :=
  ⟨inferResponseComplete_rendezvous.1 7 0 { value := none, setCount := 0 }
     rfl,
   inferResponseComplete_rendezvous.2.1 0 { value := none, setCount := 0 },
   inferResponseComplete_rendezvous.2.2 [none, some 7]
     { value := none, setCount := 0 } rfl (by decide)⟩

/-- Claim C1 counterexample: with byte size 4, preferred memory type CPU
and an environment whose malloc returns null, ResponseAlloc issues the
malloc call (which allocates nothing), leaves the buffer and tag
out-parameters null, and still returns success — refuting that success is
returned if and only if a buffer was actually allocated and that every
underlying allocation failure is reported as an allocation error. -/
theorem responseAlloc_success_without_allocation :
    (ResponseAlloc false mallocNullEnv "output0" 4 TRITONSERVER_MEMORY_CPU 0
        emptyOuts).err = none ∧
    (ResponseAlloc false mallocNullEnv "output0" 4 TRITONSERVER_MEMORY_CPU 0
        emptyOuts).calls = [AllocCall.malloc 4] ∧
    (ResponseAlloc false mallocNullEnv "output0" 4 TRITONSERVER_MEMORY_CPU 0
        emptyOuts).outs.buffer = none ∧
    (ResponseAlloc false mallocNullEnv "output0" 4 TRITONSERVER_MEMORY_CPU 0
        emptyOuts).outs.buffer_userp = none :=
  ⟨rfl, rfl, rfl, rfl⟩

/-- Claim C1 (amended): for every non-zero allocation request, on the
GPU-enabled CUDA paths a hard device-context selection failure is reported
as an allocation error before any allocation call is issued and a CUDA
allocation failure is reported as an allocation error, both leaving the
buffer and tag out-parameters unwritten; whenever the underlying allocator
hands back a non-null pointer the function returns success with non-null
buffer and tag; but when the allocator hands back null without a CUDA
error status — in particular when malloc returns null on the CPU/default
path — the function returns success with buffer and tag left unwritten. -/
theorem responseAlloc_nonzero_contract (g : Bool) (env : CudaEnv)
    (tensor_name : String) (bs : Nat) (mt : Nat) (mtid : Int)
    (o0 : AllocOuts) (hbs : bs ≠ 0) :
    (g = true → mt = TRITONSERVER_MEMORY_CPU_PINNED →
      hardDeviceFailure (env.setDevice mtid) →
      (ResponseAlloc g env tensor_name bs mt mtid o0).err.isSome = true ∧
      (ResponseAlloc g env tensor_name bs mt mtid o0).calls =
        [AllocCall.setDevice mtid] ∧
      (ResponseAlloc g env tensor_name bs mt mtid o0).outs.buffer =
        o0.buffer ∧
      (ResponseAlloc g env tensor_name bs mt mtid o0).outs.buffer_userp =
        o0.buffer_userp) ∧
    (g = true → mt = TRITONSERVER_MEMORY_GPU →
      hardDeviceFailure (env.setDevice mtid) →
      (ResponseAlloc g env tensor_name bs mt mtid o0).err.isSome = true ∧
      (ResponseAlloc g env tensor_name bs mt mtid o0).calls =
        [AllocCall.setDevice mtid] ∧
      (ResponseAlloc g env tensor_name bs mt mtid o0).outs.buffer =
        o0.buffer ∧
      (ResponseAlloc g env tensor_name bs mt mtid o0).outs.buffer_userp =
        o0.buffer_userp) ∧
    (g = true → mt = TRITONSERVER_MEMORY_CPU_PINNED →
      ¬hardDeviceFailure (env.setDevice mtid) →
      (∀ e, env.hostAlloc bs = Except.error e →
        (ResponseAlloc g env tensor_name bs mt mtid o0).err.isSome = true ∧
        (ResponseAlloc g env tensor_name bs mt mtid o0).outs.buffer =
          o0.buffer ∧
        (ResponseAlloc g env tensor_name bs mt mtid o0).outs.buffer_userp =
          o0.buffer_userp) ∧
      (∀ a, env.hostAlloc bs = Except.ok (some a) →
        (ResponseAlloc g env tensor_name bs mt mtid o0).err = none ∧
        (ResponseAlloc g env tensor_name bs mt mtid o0).outs.buffer =
          some a ∧
        (ResponseAlloc g env tensor_name bs mt mtid o0).outs.buffer_userp =
          some tensor_name) ∧
      (env.hostAlloc bs = Except.ok none →
        (ResponseAlloc g env tensor_name bs mt mtid o0).err = none ∧
        (ResponseAlloc g env tensor_name bs mt mtid o0).outs.buffer =
          o0.buffer ∧
        (ResponseAlloc g env tensor_name bs mt mtid o0).outs.buffer_userp =
          o0.buffer_userp)) ∧
    (g = true → mt = TRITONSERVER_MEMORY_GPU →
      ¬hardDeviceFailure (env.setDevice mtid) →
      (∀ e, env.gpuAlloc bs = Except.error e →
        (ResponseAlloc g env tensor_name bs mt mtid o0).err.isSome = true ∧
        (ResponseAlloc g env tensor_name bs mt mtid o0).outs.buffer =
          o0.buffer ∧
        (ResponseAlloc g env tensor_name bs mt mtid o0).outs.buffer_userp =
          o0.buffer_userp) ∧
      (∀ a, env.gpuAlloc bs = Except.ok (some a) →
        (ResponseAlloc g env tensor_name bs mt mtid o0).err = none ∧
        (ResponseAlloc g env tensor_name bs mt mtid o0).outs.buffer =
          some a ∧
        (ResponseAlloc g env tensor_name bs mt mtid o0).outs.buffer_userp =
          some tensor_name) ∧
      (env.gpuAlloc bs = Except.ok none →
        (ResponseAlloc g env tensor_name bs mt mtid o0).err = none ∧
        (ResponseAlloc g env tensor_name bs mt mtid o0).outs.buffer =
          o0.buffer ∧
        (ResponseAlloc g env tensor_name bs mt mtid o0).outs.buffer_userp =
          o0.buffer_userp)) ∧
    (¬(g = true ∧ (mt = TRITONSERVER_MEMORY_CPU_PINNED ∨
        mt = TRITONSERVER_MEMORY_GPU)) →
      (ResponseAlloc g env tensor_name bs mt mtid o0).err = none ∧
      (ResponseAlloc g env tensor_name bs mt mtid o0).outs.actual_memory_type =
        TRITONSERVER_MEMORY_CPU ∧
      (∀ a, env.hostMalloc bs = some a →
        (ResponseAlloc g env tensor_name bs mt mtid o0).outs.buffer =
          some a ∧
        (ResponseAlloc g env tensor_name bs mt mtid o0).outs.buffer_userp =
          some tensor_name) ∧
      (env.hostMalloc bs = none →
        (ResponseAlloc g env tensor_name bs mt mtid o0).outs.buffer =
          o0.buffer ∧
        (ResponseAlloc g env tensor_name bs mt mtid o0).outs.buffer_userp =
          o0.buffer_userp)) := by
  refine ⟨?_, ?_, ?_, ?_, ?_⟩
  · intro hg hmt hhard
    subst hg; subst hmt
    simp [ResponseAlloc, TRITONSERVER_MEMORY_CPU, TRITONSERVER_MEMORY_CPU_PINNED, TRITONSERVER_MEMORY_GPU, hbs, hhard]
  · intro hg hmt hhard
    subst hg; subst hmt
    simp [ResponseAlloc, TRITONSERVER_MEMORY_CPU, TRITONSERVER_MEMORY_CPU_PINNED, TRITONSERVER_MEMORY_GPU, hbs, hhard]
  · intro hg hmt hok
    subst hg; subst hmt
    refine ⟨?_, ?_, ?_⟩
    · intro e he
      simp [ResponseAlloc, TRITONSERVER_MEMORY_CPU, TRITONSERVER_MEMORY_CPU_PINNED, TRITONSERVER_MEMORY_GPU, hbs, hok, he]
    · intro a ha
      simp [ResponseAlloc, TRITONSERVER_MEMORY_CPU, TRITONSERVER_MEMORY_CPU_PINNED, TRITONSERVER_MEMORY_GPU, hbs, hok, ha, finishAlloc]
    · intro ha
      simp [ResponseAlloc, TRITONSERVER_MEMORY_CPU, TRITONSERVER_MEMORY_CPU_PINNED, TRITONSERVER_MEMORY_GPU, hbs, hok, ha, finishAlloc]
  · intro hg hmt hok
    subst hg; subst hmt
    refine ⟨?_, ?_, ?_⟩
    · intro e he
      simp [ResponseAlloc, TRITONSERVER_MEMORY_CPU, TRITONSERVER_MEMORY_CPU_PINNED, TRITONSERVER_MEMORY_GPU, hbs, hok, he]
    · intro a ha
      simp [ResponseAlloc, TRITONSERVER_MEMORY_CPU, TRITONSERVER_MEMORY_CPU_PINNED, TRITONSERVER_MEMORY_GPU, hbs, hok, ha, finishAlloc]
    · intro ha
      simp [ResponseAlloc, TRITONSERVER_MEMORY_CPU, TRITONSERVER_MEMORY_CPU_PINNED, TRITONSERVER_MEMORY_GPU, hbs, hok, ha, finishAlloc]
  · intro hno
    have h1 : ¬(g = true ∧ mt = 1) :=
      fun h => hno ⟨h.1, Or.inl h.2⟩
    have h2 : ¬(g = true ∧ mt = 2) :=
      fun h => hno ⟨h.1, Or.inr h.2⟩
    refine ⟨?_, ?_, ?_, ?_⟩
    · simp [ResponseAlloc, TRITONSERVER_MEMORY_CPU, TRITONSERVER_MEMORY_CPU_PINNED, TRITONSERVER_MEMORY_GPU, hbs, h1, h2]
    · simp [ResponseAlloc, TRITONSERVER_MEMORY_CPU, TRITONSERVER_MEMORY_CPU_PINNED, TRITONSERVER_MEMORY_GPU, hbs, h1, h2, finishAlloc_actual_memory_type]
    · intro a ha
      simp [ResponseAlloc, TRITONSERVER_MEMORY_CPU, TRITONSERVER_MEMORY_CPU_PINNED, TRITONSERVER_MEMORY_GPU, hbs, h1, h2, ha, finishAlloc]
    · intro ha
      simp [ResponseAlloc, TRITONSERVER_MEMORY_CPU, TRITONSERVER_MEMORY_CPU_PINNED, TRITONSERVER_MEMORY_GPU, hbs, h1, h2, ha, finishAlloc]

/-- Witness for responseAlloc_nonzero_contract: a hard cudaSetDevice
failure on the GPU-enabled pinned-host path returns an error having issued
only the device-selection call and leaves the out-parameters unwritten. -/
theorem responseAlloc_nonzero_contract_witness :
    (ResponseAlloc true hardFailEnv "t1" 4 TRITONSERVER_MEMORY_CPU_PINNED 0
        emptyOuts).err.isSome = true ∧
    (ResponseAlloc true hardFailEnv "t1" 4 TRITONSERVER_MEMORY_CPU_PINNED 0
        emptyOuts).calls = [AllocCall.setDevice 0] ∧
    (ResponseAlloc true hardFailEnv "t1" 4 TRITONSERVER_MEMORY_CPU_PINNED 0
        emptyOuts).outs.buffer = emptyOuts.buffer ∧
    (ResponseAlloc true hardFailEnv "t1" 4 TRITONSERVER_MEMORY_CPU_PINNED 0
        emptyOuts).outs.buffer_userp = emptyOuts.buffer_userp :=
  (responseAlloc_nonzero_contract true hardFailEnv "t1" 4
      TRITONSERVER_MEMORY_CPU_PINNED 0 emptyOuts (by decide)).1
    rfl rfl (by decide)

end TritonDevTools
